import Mathlib

/-!
# Verification of the agentic-commerce checkout / delegated-payment core

Shallow embedding, in Lean 4, of the JavaScript reference implementation:

* `services/DelegatedTokenManager.js` — the allowance vault
  (`validateAllowance`, `consumeToken`, `storeToken`);
* `middleware/agentic-commerce.js` — the idempotency guard
  (`handleIdempotency`, `hashRequestBody`);
* `services/CartStateBuilder.js` — line items, totals, fulfillment
  options, completeness (`buildLineItems`, `buildTotals`,
  `calculateStatus`, `buildCheckoutSession`);
* `routes/agentic-checkout.js` — the `update`, `complete`, `cancel`
  endpoints over the persisted `orders.json` state;
* `routes/delegated-payment.js` — issuance validation for delegated
  tokens.

Modelling conventions:

* Timestamps (`new Date()`, ISO strings, `Date.now()`) are integers
  (milliseconds since the epoch); `a > b` on dates is integer `>`.
  A session whose `expires_at` field is absent parses to an invalid
  JS `Date`, for which every comparison is `false`; the embedding
  mirrors this by treating a `none` expiry as never expired.
* JS numbers are rationals (`Rat`); `Math.round` is Mathlib's `round`
  (round half toward positive infinity, matching JS).
* JSON objects (`orders.json` maps, request bodies) are association
  lists `List (String × α)`; `lookupKey`/`setKey` model property read
  and assignment (update in place, append when fresh).
* External collaborators (Stripe charge/tokenization, the catalog
  lookup, the JS `Date` month-end computation) are parameters of the
  route functions: their outcomes are inputs, not modelled behaviour.
* Presentation-only fields with no behavioural role (redacted card
  display data, static `links`, `payment_provider`) are omitted.
-/

namespace ACP

/-- JS object property read: first binding wins, `undefined` is `none`. -/
def lookupKey {α : Type} (m : List (String × α)) (k : String) : Option α :=
  match m with
  | [] => none
  | p :: rest => if p.1 = k then some p.2 else lookupKey rest k

/-- JS object property assignment `m[k] = v`: overwrite in place, append when fresh. -/
def setKey {α : Type} (m : List (String × α)) (k : String) (v : α) : List (String × α) :=
  match m with
  | [] => [(k, v)]
  | p :: rest => if p.1 = k then (k, v) :: rest else p :: setKey rest k v

/-- JS `s.startsWith(pre)`, phrased over character lists so it evaluates
inside the kernel. -/
def strStartsWith (s pre : String) : Bool :=
  pre.data.isPrefixOf s.data

/-- Error body shape `{type, code, message}` used by every endpoint
(the JS field `type` is rendered `etype`). -/
structure ErrorBody where
  etype : String
  code : String
  message : String
deriving DecidableEq

/-- Allowance attached to a delegated token
(`DelegatedTokenManager.storeToken`, lines 74-81). -/
structure Allowance where
  reason : String
  max_amount : Rat
  currency : String
  checkout_session_id : String
  merchant_id : String
  expires_at : Int
deriving DecidableEq

/-- Stored delegated token (`DelegatedTokenManager.storeToken`, lines 70-88;
the redacted `payment_method` display block is presentation-only and omitted). -/
structure Token where
  id : String
  stripe_token_id : String
  allowance : Allowance
  used : Bool
  used_at : Option Int
  created : Int
deriving DecidableEq

/-- The `delegated_tokens` map of `orders.json`. -/
abbrev TokenStore := List (String × Token)

/-- Result of `DelegatedTokenManager.validateAllowance`:
`{valid: false, error}` or `{valid: true, token}`. -/
inductive ValidationResult where
  | invalid (error : ErrorBody)
  | valid (token : Token)
deriving DecidableEq

/-- `DelegatedTokenManager.validateAllowance(vaultTokenId, checkoutSessionId,
amount, currency)` (lines 122-199). `now` is the `new Date()` taken at line 149;
the token store is the `delegated_tokens` map read from `orders.json`. -/
def validateAllowance (store : TokenStore) (vaultTokenId checkoutSessionId : String)
    (amount : Rat) (currency : String) (now : Int) : ValidationResult :=
  match lookupKey store vaultTokenId with
  | none =>
      .invalid ⟨"invalid_request", "invalid_token", "Token not found"⟩
  | some token =>
      if token.used then
        .invalid ⟨"invalid_request", "token_already_used", "Token has already been used"⟩
      else if now > token.allowance.expires_at then
        .invalid ⟨"invalid_request", "token_expired", "Token has expired"⟩
      else if token.allowance.checkout_session_id ≠ checkoutSessionId then
        .invalid ⟨"invalid_request", "invalid_session",
          "Token is not valid for this checkout session"⟩
      else if amount > token.allowance.max_amount then
        .invalid ⟨"invalid_request", "amount_exceeds_allowance",
          "Amount " ++ toString amount ++ " exceeds maximum allowed "
            ++ toString token.allowance.max_amount⟩
      else if currency ≠ token.allowance.currency then
        .invalid ⟨"invalid_request", "currency_mismatch",
          "Currency " ++ currency ++ " does not match token currency "
            ++ token.allowance.currency⟩
      else
        .valid token

/-- `DelegatedTokenManager.consumeToken(vaultTokenId)` (lines 205-215): re-read
the store, and only if the token exists set `used = true, used_at = now` and
write back; a missing id writes nothing. -/
def consumeToken (store : TokenStore) (vaultTokenId : String) (now : Int) : TokenStore :=
  match lookupKey store vaultTokenId with
  | none => store
  | some token =>
      setKey store vaultTokenId { token with used := true, used_at := some now }

/-- First check whose condition holds wins; `none` means every check passed. -/
def firstFailingCode : List (Bool × String) → Option String
  | [] => none
  | (b, c) :: rest => if b then some c else firstFailingCode rest

/-- Modelled from the spec: the six vault checks in the order the spec lists
them — token exists → not already used → not expired (`now <= expiresAt`) →
session match → `amount <= maxAmount` → currency match — each with its own
error code, first failure winning. -/
def specValidationCode (store : TokenStore) (vaultTokenId checkoutSessionId : String)
    (amount : Rat) (currency : String) (now : Int) : Option String :=
  match lookupKey store vaultTokenId with
  | none => some "invalid_token"
  | some token =>
      firstFailingCode
        [ (token.used, "token_already_used"),
          (decide (now > token.allowance.expires_at), "token_expired"),
          (decide (token.allowance.checkout_session_id ≠ checkoutSessionId), "invalid_session"),
          (decide (amount > token.allowance.max_amount), "amount_exceeds_allowance"),
          (decide (currency ≠ token.allowance.currency), "currency_mismatch") ]

/-- Error code of a validation result, `none` on success. -/
def resultErrorCode : ValidationResult → Option String
  | .invalid e => some e.code
  | .valid _ => none

/-! ## JSON bodies and the idempotency guard (`middleware/agentic-commerce.js`) -/

mutual
/-- A JSON value; object fields keep their insertion order, as JS objects
and `JSON.stringify` do. -/
inductive Json where
  | jnull
  | jbool (b : Bool)
  | jnum (n : Int)
  | jstr (s : String)
  | jarr (elems : JsonArr)
  | jobj (fields : JsonObj)

/-- A JSON array, as its own inductive so recursion stays structural. -/
inductive JsonArr where
  | nil
  | cons (hd : Json) (tl : JsonArr)

/-- Ordered JSON object fields. -/
inductive JsonObj where
  | nil
  | cons (key : String) (val : Json) (tl : JsonObj)
end

/-- String literal rendering (no escape sequences are modelled; every key and
string used here is plain ASCII without quotes). -/
def jsonQuote (s : String) : String := "\"" ++ s ++ "\""

mutual
/-- `JSON.stringify`, preserving object key order. A literal brace is written
with its escape so it stays text. -/
def stringifyJson : Json → String
  | .jnull => "null"
  | .jbool true => "true"
  | .jbool false => "false"
  | .jnum n => toString n
  | .jstr s => jsonQuote s
  | .jarr xs => "[" ++ stringifyArr xs ++ "]"
  | .jobj fs => "\x7b" ++ stringifyObj fs ++ "\x7d"

def stringifyArr : JsonArr → String
  | .nil => ""
  | .cons x .nil => stringifyJson x
  | .cons x (.cons y tl) => stringifyJson x ++ "," ++ stringifyArr (.cons y tl)

def stringifyObj : JsonObj → String
  | .nil => ""
  | .cons k v .nil => jsonQuote k ++ ":" ++ stringifyJson v
  | .cons k v (.cons k2 v2 tl) =>
      jsonQuote k ++ ":" ++ stringifyJson v ++ "," ++ stringifyObj (.cons k2 v2 tl)
end

/-- Insert a field into a key-sorted object, keeping it sorted. -/
def insertField (k : String) (v : Json) : JsonObj → JsonObj
  | .nil => .cons k v .nil
  | .cons k2 v2 tl =>
      match compare k k2 with
      | .lt => .cons k v (.cons k2 v2 tl)
      | _ => .cons k2 v2 (insertField k v tl)

mutual
/-- Modelled from the spec: canonicalization by recursive key sort. Two
bodies are "logically identical JSON" exactly when their canonical forms
are equal. The middleware itself never computes this. -/
def canonicalJson : Json → Json
  | .jnull => .jnull
  | .jbool b => .jbool b
  | .jnum n => .jnum n
  | .jstr s => .jstr s
  | .jarr xs => .jarr (canonicalArr xs)
  | .jobj fs => .jobj (canonicalObj fs)

def canonicalArr : JsonArr → JsonArr
  | .nil => .nil
  | .cons x tl => .cons (canonicalJson x) (canonicalArr tl)

def canonicalObj : JsonObj → JsonObj
  | .nil => .nil
  | .cons k v tl => insertField k (canonicalJson v) (canonicalObj tl)
end

/-- Stand-in for `crypto.createHash("sha256")...digest("hex")`. The guard
only ever compares digests for equality, and SHA-256 is deterministic and
collision-free for every practical purpose, so it is modelled as an
injective function of the serialized body — concretely, the serialization
itself. -/
def sha256Model (s : String) : String := s

/-- `hashRequestBody(body)` (middleware lines 190-194): empty string for a
missing body, otherwise the hash of `JSON.stringify(body)` — with no
canonicalization of key order before hashing. -/
def hashRequestBody : Option Json → String
  | none => ""
  | some body => sha256Model (stringifyJson body)

/-- One cached idempotency record (middleware lines 100-105); `ρ` is the
response body type of the wrapped endpoint. -/
structure IdemRecord (ρ : Type) where
  status : Nat
  response : ρ
  bodyHash : String
  timestamp : Int
deriving DecidableEq

/-- The in-memory `idempotencyStore` map. -/
abbrev IdemStore (ρ : Type) := List (String × IdemRecord ρ)

/-- Outcome of one request passing through `handleIdempotency` (middleware
lines 66-119): either the 409 conflict rejection, a cached replay, or an
actual execution of the business handler. In each case the resulting
idempotency store and business state are carried along. -/
inductive IdemResult (ρ σ : Type) where
  | rejected (status : Nat) (error : ErrorBody) (store : IdemStore ρ) (state : σ)
  | replayed (status : Nat) (response : ρ) (store : IdemStore ρ) (state : σ)
  | executed (status : Nat) (response : ρ) (store : IdemStore ρ) (state : σ)
deriving DecidableEq

/-- `handleIdempotency` (middleware lines 66-119) around a business handler
over state `σ`. No key: run the handler untouched. Key seen before: 409
`idempotency_conflict` when the body hash differs, otherwise replay the
cached status and body without running the handler. Fresh key: run the
handler and — via the wrapped `res.json`, only when the status is below
500 — record the response under the key. -/
def handleIdempotency {ρ σ : Type} (store : IdemStore ρ) (key : Option String)
    (body : Option Json) (now : Int) (state : σ)
    (handler : σ → Nat × ρ × σ) : IdemResult ρ σ :=
  match key with
  | none =>
      let r := handler state
      .executed r.1 r.2.1 store r.2.2
  | some k =>
      match lookupKey store k with
      | some cached =>
          if cached.bodyHash ≠ hashRequestBody body then
            .rejected 409
              ⟨"invalid_request", "idempotency_conflict",
                "Same Idempotency-Key used with different parameters"⟩
              store state
          else
            .replayed cached.status cached.response store state
      | none =>
          let r := handler state
          let store' :=
            if r.1 < 500 then
              setKey store k ⟨r.1, r.2.1, hashRequestBody body, now⟩
            else store
          .executed r.1 r.2.1 store' r.2.2

/-! ## Cart state builder (`services/CartStateBuilder.js`) -/

/-- JS `Math.round(p * k)` for a rational `p` and integer `k`, computed by
floor division so it evaluates inside the kernel:
`Math.round(x) = ⌊x + 1/2⌋` (half rounds toward positive infinity, as in
JS), and `p * k + 1/2 = (2 * p.num * k + p.den) / (2 * p.den)` exactly.
`jsRoundRatInt_eq_round` below proves it equal to Mathlib's `round`. -/
def jsRoundRatInt (p : Rat) (k : Int) : Int :=
  Int.fdiv (2 * p.num * k + (p.den : Int)) (2 * (p.den : Int))

/-- Per-region pricing block of a catalog product; the three fields model the
fallback chain `pricing[sale] || pricing[list] || pricing.default_price || 0`
for the fixed region the server runs with. -/
structure Pricing where
  sale_price : Option Rat
  list_price : Option Rat
  default_price : Option Rat
deriving DecidableEq

/-- A JS falsy price (absent or `0`) falls through to the next candidate. -/
def truthyPrice : Option Rat → Option Rat
  | none => none
  | some q => if q = 0 then none else some q

/-- The `price` picked in `buildLineItems` (CartStateBuilder lines 49-54). -/
def effectivePrice (p : Pricing) : Rat :=
  (truthyPrice p.sale_price <|> truthyPrice p.list_price <|> truthyPrice p.default_price).getD 0

/-- A catalog product as far as the builder reads it. -/
structure Product where
  id : String
  pricing : Pricing
deriving DecidableEq

/-- The Catalog Provider, `productService.getProductById`. -/
abbrev Catalog := String → Option Product

/-- A requested item `{id, quantity}`. -/
structure ItemReq where
  id : String
  quantity : Int
deriving DecidableEq

/-- One entry of `session.line_items` (CartStateBuilder lines 69-80). -/
structure LineItem where
  id : String
  item : ItemReq
  base_amount : Int
  discount : Int
  subtotal : Int
  tax : Int
  total : Int
deriving DecidableEq

/-- A `messages` entry; `mtype` renders the JS field `type`, and `code` is
absent on info messages. -/
structure Message where
  mtype : String
  code : Option String
  param : Option String
  content_type : String
  content : String
deriving DecidableEq

/-- The blocking error pushed for an unresolvable item (lines 38-44). -/
def itemNotFoundError (itemId : String) : Message :=
  ⟨"error", some "invalid", some ("$.items[?(@.id=='" ++ itemId ++ "')]"), "plain",
    "Product with ID " ++ itemId ++ " not found"⟩

/-- `buildLineItems(items, region)` (CartStateBuilder lines 27-93): resolve
each item through the catalog, in order; unresolved items become blocking
error messages; for resolved items,
`baseAmount = Math.round(price * quantity * 100)`, `discount = 0`,
`subtotal = baseAmount - discount`, `tax = Math.round(subtotal * taxRate)`,
`total = subtotal + tax`. `now` is the `Date.now()` in the line-item id. -/
def buildLineItems (catalog : Catalog) (taxRate : Rat) (items : List ItemReq)
    (now : Int) : List LineItem × List Message :=
  match items with
  | [] => ([], [])
  | item :: rest =>
      let r := buildLineItems catalog taxRate rest now
      match catalog item.id with
      | none => (r.1, itemNotFoundError item.id :: r.2)
      | some product =>
          let price := effectivePrice product.pricing
          let baseAmount := jsRoundRatInt price (item.quantity * 100)
          let discount : Int := 0
          let subtotal := baseAmount - discount
          let tax := jsRoundRatInt taxRate subtotal
          let total := subtotal + tax
          ({ id := "line_" ++ item.id ++ "_" ++ toString now,
             item := item,
             base_amount := baseAmount, discount := discount,
             subtotal := subtotal, tax := tax, total := total } :: r.1, r.2)

/-- One fulfillment option (CartStateBuilder lines 246-279). -/
structure FulfillmentOption where
  ftype : String
  id : String
  title : String
  subtitle : String
  carrier : String
  earliest_delivery_time : Int
  latest_delivery_time : Int
  subtotal : Int
  tax : Int
  total : Int
deriving DecidableEq

/-- Milliseconds in a day, for the delivery windows. -/
def dayMs : Int := 86400000

/-- `buildFulfillmentOptions(address, items)` (lines 233-282): the two fixed
shipping options; `address` and `items` are unused by the source body. -/
def buildFulfillmentOptions (taxRate : Rat) (now : Int) : List FulfillmentOption :=
  let standardCost : Int := 599
  let standardTax := jsRoundRatInt taxRate standardCost
  let expressCost : Int := 1999
  let expressTax := jsRoundRatInt taxRate expressCost
  [ ⟨"shipping", "shipping_standard", "Standard Shipping", "5-7 business days", "USPS",
      now + 5 * dayMs, now + 7 * dayMs,
      standardCost, standardTax, standardCost + standardTax⟩,
    ⟨"shipping", "shipping_express", "Express Shipping", "2-3 business days", "FedEx",
      now + 2 * dayMs, now + 3 * dayMs,
      expressCost, expressTax, expressCost + expressTax⟩ ]

/-- One entry of the derived `totals` sequence. -/
structure Total where
  ttype : String
  display_text : String
  amount : Int
deriving DecidableEq

/-- `buildTotals(lineItems, selectedFulfillment)` (CartStateBuilder lines
140-225), with its conditional entries: `items_discount`, `discount` and
`fee` appear only when positive (and the latter two are the constant 0). -/
def buildTotals (lineItems : List LineItem) (selectedFulfillment : Option FulfillmentOption) :
    List Total :=
  let itemsBaseAmount := (lineItems.map (·.base_amount)).sum
  let itemsDiscount := (lineItems.map (·.discount)).sum
  let subtotalAmount := itemsBaseAmount - itemsDiscount
  let cartDiscount : Int := 0
  let fulfillmentCost := match selectedFulfillment with
    | some f => f.subtotal
    | none => 0
  let itemsTax := (lineItems.map (·.tax)).sum
  let fulfillmentTax := match selectedFulfillment with
    | some f => f.tax
    | none => 0
  let totalTax := itemsTax + fulfillmentTax
  let fees : Int := 0
  let grandTotal := subtotalAmount - cartDiscount + fulfillmentCost + totalTax + fees
  [⟨"items_base_amount", "Items Subtotal", itemsBaseAmount⟩]
    ++ (if itemsDiscount > 0 then [⟨"items_discount", "Items Discount", itemsDiscount⟩] else [])
    ++ [⟨"subtotal", "Subtotal", subtotalAmount⟩]
    ++ (if cartDiscount > 0 then [⟨"discount", "Discount", cartDiscount⟩] else [])
    ++ [⟨"fulfillment", "Shipping", fulfillmentCost⟩]
    ++ [⟨"tax", "Tax", totalTax⟩]
    ++ (if fees > 0 then [⟨"fee", "Service Fee", fees⟩] else [])
    ++ [⟨"total", "Total", grandTotal⟩]

/-- Session lifecycle status. -/
inductive Status where
  | not_ready_for_payment
  | ready_for_payment
  | completed
  | canceled
deriving DecidableEq

/-- The string the JS code stores for a status. -/
def statusString : Status → String
  | .not_ready_for_payment => "not_ready_for_payment"
  | .ready_for_payment => "ready_for_payment"
  | .completed => "completed"
  | .canceled => "canceled"

/-- `calculateStatus` (CartStateBuilder lines 336-359): any error message,
no items, no address, or no selected shipping keeps the session
`not_ready_for_payment`. -/
def calculateStatus (hasAddress hasItems hasSelectedShipping : Bool)
    (messages : List Message) : Status :=
  if messages.any (fun m => m.mtype == "error") then .not_ready_for_payment
  else if !hasItems then .not_ready_for_payment
  else if !hasAddress then .not_ready_for_payment
  else if !hasSelectedShipping then .not_ready_for_payment
  else .ready_for_payment

/-- The `order` stub embedded in a completed session. -/
structure OrderRef where
  id : String
  checkout_session_id : String
  permalink_url : String
deriving DecidableEq

/-- A stored checkout session. Optional timestamps model fields the JS code
only sometimes assigns; a session the builder just produced has none of
them until the route adds them. -/
structure Session where
  id : String
  status : Status
  currency : String
  line_items : List LineItem
  totals : List Total
  fulfillment_options : List FulfillmentOption
  messages : List Message
  buyer : Option String
  fulfillment_address : Option String
  fulfillment_option_id : Option String
  created_at : Option Int
  expires_at : Option Int
  updated_at : Option Int
  completed_at : Option Int
  canceled_at : Option Int
  order : Option OrderRef
deriving DecidableEq

/-- `buildCheckoutSession` (CartStateBuilder lines 366-472), in the
`items`-based branch both checkout routes use (neither passes `rtgCartId`).
Buyer and addresses are opaque strings. -/
def buildCheckoutSession (catalog : Catalog) (taxRate : Rat) (currency : String)
    (sessionId : String) (buyer : Option String) (items : List ItemReq)
    (fulfillmentAddress : Option String) (fulfillmentOptionId : Option String)
    (now : Int) : Session :=
  let built := buildLineItems catalog taxRate items now
  let lineItems := built.1
  let errors0 := built.2
  let fulfillmentOptions := match fulfillmentAddress with
    | some _ => buildFulfillmentOptions taxRate now
    | none => []
  let selErr : Option FulfillmentOption × List Message :=
    match fulfillmentOptionId with
    | none => (none, errors0)
    | some fid =>
        if fulfillmentOptions.isEmpty then (none, errors0)
        else
          match fulfillmentOptions.find? (fun o => o.id == fid) with
          | some o => (some o, errors0)
          | none =>
              (none, errors0 ++
                [⟨"error", some "invalid", some "$.fulfillment_option_id", "plain",
                  "Invalid fulfillment option: " ++ fid⟩])
  let selectedFulfillment := selErr.1
  let errors := selErr.2
  let totals := buildTotals lineItems selectedFulfillment
  let infoMessages : List Message :=
    match fulfillmentAddress with
    | none => [⟨"info", none, none, "plain", "Please provide a shipping address to continue."⟩]
    | some _ =>
        match fulfillmentOptionId with
        | none => [⟨"info", none, none, "plain", "Please select a shipping method to continue."⟩]
        | some _ => []
  let messages := errors ++ infoMessages
  let status := calculateStatus fulfillmentAddress.isSome (!lineItems.isEmpty)
    selectedFulfillment.isSome messages
  { id := sessionId, status := status, currency := currency,
    line_items := lineItems, totals := totals,
    fulfillment_options := fulfillmentOptions, messages := messages,
    buyer := buyer, fulfillment_address := fulfillmentAddress,
    fulfillment_option_id := fulfillmentOptionId,
    created_at := none, expires_at := none, updated_at := none,
    completed_at := none, canceled_at := none, order := none }

/-! ## Checkout routes (`routes/agentic-checkout.js`)

Every route starts with `readData()` (a fresh parse of `orders.json`) and
mutates nothing unless it reaches a `writeData` call, so a route modelled
here returns the response together with the file contents after the call. -/

/-- A stored order record (complete route, lines 296-313). -/
structure OrderRec where
  id : String
  checkout_session_id : String
  permalink_url : String
  ostatus : String
  buyer : Option String
  line_items : List LineItem
  fulfillment_address : Option String
  fulfillment_option_id : Option String
  totals : List Total
  currency : String
  provider : String
  charge_id : String
  charge_status : String
  created_at : Int
deriving DecidableEq

/-- The whole `orders.json` document: sessions, orders and delegated tokens
live in the one file that `readData`/`writeData` and the token manager both
rewrite in full. -/
structure Data where
  checkout_sessions : List (String × Session)
  orders : List (String × OrderRec)
  delegated_tokens : TokenStore
deriving DecidableEq

/-- `payment_data` of a complete request. -/
structure PaymentData where
  token : String
  provider : String
deriving DecidableEq

/-- Outcome of `stripe.charges.create` (an external collaborator). -/
structure Charge where
  id : String
  cstatus : String
deriving DecidableEq

/-- A route response body: an error object or a session document. -/
inductive RouteBody where
  | err (e : ErrorBody)
  | session (s : Session)
deriving DecidableEq

/-- HTTP status, response body and resulting file state of a route call. -/
structure RouteResult where
  status : Nat
  body : RouteBody
  data : Data
deriving DecidableEq

/-- Like `RouteResult`, recording additionally whether the external charge
call was reached. -/
structure CompleteResult where
  status : Nat
  body : RouteBody
  data : Data
  chargeAttempted : Bool
deriving DecidableEq

/-- The `session_not_found` 404 body. -/
def sessionNotFoundError (sessionId : String) : ErrorBody :=
  ⟨"invalid_request", "session_not_found", "Checkout session " ++ sessionId ++ " not found"⟩

/-- Amount of the `total`-typed entry, 0 when absent
(complete route lines 237-238). -/
def totalAmountOf (s : Session) : Int :=
  match s.totals.find? (fun t => t.ttype == "total") with
  | some t => t.amount
  | none => 0

/-- `POST /checkout_sessions/:id` (update, route lines 110-195). The expiry
check runs right after the lookup: an expired session is stored back with
status `canceled` and the request is rejected; otherwise terminal statuses
are rejected, and the session is rebuilt from the merged patch
(`field || existing.field` merge semantics), keeping `created_at` and
`expires_at` and stamping `updated_at`. -/
structure UpdateBody where
  buyer : Option String
  items : Option (List ItemReq)
  fulfillment_address : Option String
  fulfillment_option_id : Option String
deriving DecidableEq

def updateRoute (catalog : Catalog) (taxRate : Rat) (currency : String)
    (d : Data) (sessionId : String) (body : UpdateBody) (now : Int) : RouteResult :=
  match lookupKey d.checkout_sessions sessionId with
  | none => ⟨404, .err (sessionNotFoundError sessionId), d⟩
  | some existingSession =>
      let isExpired : Bool := match existingSession.expires_at with
        | some e => decide (now > e)
        | none => false
      if isExpired then
        let s' := { existingSession with status := .canceled }
        ⟨400, .err ⟨"invalid_request", "session_expired", "Checkout session has expired"⟩,
          { d with checkout_sessions := setKey d.checkout_sessions sessionId s' }⟩
      else if existingSession.status = .completed ∨ existingSession.status = .canceled then
        ⟨400, .err ⟨"invalid_request", "session_already_finalized",
            "Checkout session is already " ++ statusString existingSession.status⟩, d⟩
      else
        let updatedBuyer := body.buyer <|> existingSession.buyer
        let updatedItems := match body.items with
          | some is => is
          | none => existingSession.line_items.map (·.item)
        let updatedAddress := body.fulfillment_address <|> existingSession.fulfillment_address
        let updatedFid := body.fulfillment_option_id <|> existingSession.fulfillment_option_id
        let rebuilt := buildCheckoutSession catalog taxRate currency sessionId updatedBuyer
          updatedItems updatedAddress updatedFid now
        let session' := { rebuilt with
          created_at := existingSession.created_at,
          expires_at := existingSession.expires_at,
          updated_at := some now }
        ⟨200, .session session',
          { d with checkout_sessions := setKey d.checkout_sessions sessionId session' }⟩

/-- `POST /checkout_sessions/:id/complete` (route lines 201-352). `d` is the
file contents at the route's `readData()` (line 216); `chargeOutcome` and
`orderId` stand for the Stripe call and the fresh uuid. There is no expiry
check on this path. When the payment token is delegated, `validateAllowance`
runs against the same file state; on success the manager's `consumeToken`
re-reads the file and writes `used = true` — but the route then executes
`writeData(data)` (line 328) with its own snapshot `d`, whose
`delegated_tokens` were read before the consume, so the final file keeps the
token's pre-consume state. The model returns that final file. -/
def completeRoute (d : Data) (sessionId : String) (payment_data : Option PaymentData)
    (buyer : Option String) (now : Int) (chargeOutcome : Except String Charge)
    (orderId : String) (baseUrl : String) : CompleteResult :=
  match payment_data with
  | none => ⟨400, .err ⟨"invalid_request", "missing_payment_data",
      "Required: payment_data with token and provider"⟩, d, false⟩
  | some pd =>
      if pd.token = "" ∨ pd.provider = "" then
        ⟨400, .err ⟨"invalid_request", "missing_payment_data",
          "Required: payment_data with token and provider"⟩, d, false⟩
      else
        match lookupKey d.checkout_sessions sessionId with
        | none => ⟨404, .err (sessionNotFoundError sessionId), d, false⟩
        | some session =>
            if session.status ≠ .ready_for_payment then
              ⟨400, .err ⟨"invalid_request", "session_not_ready",
                "Session status is " ++ statusString session.status
                  ++ ", expected ready_for_payment"⟩, d, false⟩
            else
              let totalAmount := totalAmountOf session
              let isDelegatedToken := strStartsWith pd.token "vt_"
              let validation : Option ValidationResult :=
                if isDelegatedToken then
                  some (validateAllowance d.delegated_tokens pd.token sessionId
                    ((totalAmount : Int) : Rat) session.currency now)
                else none
              match validation with
              | some (.invalid e) => ⟨400, .err e, d, false⟩
              | _ =>
                  match chargeOutcome with
                  | .error msg =>
                      ⟨400, .err ⟨"processing_error", "payment_declined", msg⟩, d, true⟩
                  | .ok charge =>
                      -- The consume writes the file here …
                      let _fileAfterConsume : TokenStore :=
                        if isDelegatedToken then consumeToken d.delegated_tokens pd.token now
                        else d.delegated_tokens
                      -- … and the route's final `writeData(d)` then overwrites
                      -- it with the stale snapshot read at line 216.
                      let permalinkUrl := baseUrl ++ "/orders/" ++ orderId
                      let order : OrderRec :=
                        { id := orderId, checkout_session_id := sessionId,
                          permalink_url := permalinkUrl, ostatus := "confirmed",
                          buyer := buyer <|> session.buyer,
                          line_items := session.line_items,
                          fulfillment_address := session.fulfillment_address,
                          fulfillment_option_id := session.fulfillment_option_id,
                          totals := session.totals, currency := session.currency,
                          provider := pd.provider, charge_id := charge.id,
                          charge_status := charge.cstatus, created_at := now }
                      let session' := { session with
                        status := .completed, completed_at := some now,
                        order := some ⟨orderId, sessionId, permalinkUrl⟩ }
                      ⟨201, .session session',
                        { checkout_sessions := setKey d.checkout_sessions sessionId session',
                          orders := setKey d.orders orderId order,
                          delegated_tokens := d.delegated_tokens }, true⟩

/-- `POST /checkout_sessions/:id/cancel` (route lines 358-406): 404 when
absent, 400 `session_already_completed` for a completed session, the stored
body unchanged for an already-canceled session, otherwise mark canceled and
persist. No expiry check on this path. -/
def cancelRoute (d : Data) (sessionId : String) (now : Int) : RouteResult :=
  match lookupKey d.checkout_sessions sessionId with
  | none => ⟨404, .err (sessionNotFoundError sessionId), d⟩
  | some session =>
      if session.status = .completed then
        ⟨400, .err ⟨"invalid_request", "session_already_completed",
          "Cannot cancel a completed session"⟩, d⟩
      else if session.status = .canceled then
        ⟨200, .session session, d⟩
      else
        let session' := { session with status := .canceled, canceled_at := some now }
        ⟨200, .session session',
          { d with checkout_sessions := setKey d.checkout_sessions sessionId session' }⟩

/-! ## Delegated-payment issuance (`routes/delegated-payment.js`) -/

/-- JS truthiness of an optional string: absent or empty is falsy. -/
def truthyStr : Option String → Bool
  | none => false
  | some s => s ≠ ""

/-- JS truthiness of an optional number: absent or `0` is falsy. -/
def truthyInt : Option Int → Bool
  | none => false
  | some n => n ≠ 0

/-- The regex `^[a-z]{3}$` (route line 102). -/
def currencyMatches (c : String) : Bool :=
  c.length == 3 && c.data.all (fun ch => 'a' ≤ ch && ch ≤ 'z')

/-- `payment_method` of an issue request, as far as validation reads it. -/
structure PaymentMethodReq where
  ptype : Option String
  card_number_type : Option String
  number : Option String
  display_card_funding_type : Option String
  hasMetadata : Bool
  exp_month : Option Int
  exp_year : Option Int
deriving DecidableEq

/-- `allowance` of an issue request: every field optional at the boundary. -/
structure AllowanceReq where
  reason : Option String
  max_amount : Option Rat
  currency : Option String
  checkout_session_id : Option String
  merchant_id : Option String
  expires_at : Option Int
deriving DecidableEq

/-- One validation error `{param, message}` (route lines 47-141). -/
structure VError where
  vparam : String
  vmessage : String
deriving DecidableEq

/-- `payment_method` validation (route lines 49-85). The JS `typeof` and
presence checks become truthiness on the modelled fields. -/
def paymentMethodValidationErrors (pm : Option PaymentMethodReq) : List VError :=
  match pm with
  | none => [⟨"payment_method", "Required field: payment_method"⟩]
  | some p =>
      (if p.ptype ≠ some "card" then
        [⟨"payment_method.type", "Only card payment method is supported"⟩] else [])
      ++ (if truthyStr p.card_number_type then [] else
        [⟨"payment_method.card_number_type", "Required field: card_number_type"⟩])
      ++ (if truthyStr p.number then [] else
        [⟨"payment_method.number", "Required field: number"⟩])
      ++ (if truthyStr p.display_card_funding_type then [] else
        [⟨"payment_method.display_card_funding_type",
          "Required field: display_card_funding_type"⟩])
      ++ (if p.hasMetadata then [] else
        [⟨"payment_method.metadata", "Required field: metadata"⟩])

/-- `allowance` validation (route lines 87-126), exactly the checks the
source performs: `reason` must be `"one_time"`; `max_amount` must be truthy
and a number (`!allowance.max_amount || typeof !== "number"`), so `0` and
absence fail but any other number — negative or fractional included —
passes; `currency` must match `^[a-z]{3}$`; `checkout_session_id` and
`merchant_id` must be truthy; `expires_at` must merely be present — it is
never compared against the clock. -/
def allowanceValidationErrors (allowance : Option AllowanceReq) : List VError :=
  match allowance with
  | none => [⟨"allowance", "Required field: allowance"⟩]
  | some a =>
      (if a.reason ≠ some "one_time" then
        [⟨"allowance.reason", "Only one_time allowance is supported"⟩] else [])
      ++ (match a.max_amount with
        | none => [⟨"allowance.max_amount", "Required field: max_amount (integer)"⟩]
        | some q =>
            if q = 0 then [⟨"allowance.max_amount", "Required field: max_amount (integer)"⟩]
            else [])
      ++ (match a.currency with
        | none => [⟨"allowance.currency", "Required field: currency (3-letter lowercase ISO-4217)"⟩]
        | some c =>
            if currencyMatches c then []
            else [⟨"allowance.currency", "Required field: currency (3-letter lowercase ISO-4217)"⟩])
      ++ (if truthyStr a.checkout_session_id then [] else
        [⟨"allowance.checkout_session_id", "Required field: checkout_session_id"⟩])
      ++ (if truthyStr a.merchant_id then [] else
        [⟨"allowance.merchant_id", "Required field: merchant_id"⟩])
      ++ (match a.expires_at with
        | none => [⟨"allowance.expires_at", "Required field: expires_at"⟩]
        | some _ => [])

/-- A full issue request (route lines 38-44). -/
structure DelegateRequest where
  payment_method : Option PaymentMethodReq
  allowance : Option AllowanceReq
  risk_signals : Option (List String)
  hasMetadata : Bool
deriving DecidableEq

/-- All validation errors of an issue request, in source order
(route lines 47-141). -/
def delegateValidationErrors (req : DelegateRequest) : List VError :=
  paymentMethodValidationErrors req.payment_method
    ++ allowanceValidationErrors req.allowance
    ++ (match req.risk_signals with
      | none => [⟨"risk_signals", "Required field: risk_signals (non-empty array)"⟩]
      | some rs =>
          if rs.isEmpty then
            [⟨"risk_signals", "Required field: risk_signals (non-empty array)"⟩]
          else [])
    ++ (if req.hasMetadata then [] else [⟨"metadata", "Required field: metadata"⟩])

/-- `DelegatedTokenManager.storeToken` (lines 45-102): build the token with
`used = false` from the request's allowance and insert it under the fresh
vault id. (The fields are present whenever validation passed; missing ones
default like JS `undefined` copies would.) -/
def storeToken (store : TokenStore) (stripeTokenId : String) (a : AllowanceReq)
    (vaultTokenId : String) (now : Int) : TokenStore :=
  setKey store vaultTokenId
    { id := vaultTokenId, stripe_token_id := stripeTokenId,
      allowance :=
        { reason := a.reason.getD "", max_amount := a.max_amount.getD 0,
          currency := a.currency.getD "",
          checkout_session_id := a.checkout_session_id.getD "",
          merchant_id := a.merchant_id.getD "",
          expires_at := a.expires_at.getD 0 },
      used := false, used_at := none, created := now }

/-- Response body of the issue endpoint. -/
inductive IssueBody where
  | err (e : ErrorBody) (param : Option String)
  | ok (id : String) (created : Int)
deriving DecidableEq

/-- Result of one issue call: status, body, resulting token store. -/
structure IssueResult where
  status : Nat
  body : IssueBody
  store : TokenStore
deriving DecidableEq

/-- `POST /agentic_commerce/delegate_payment` (route lines 36-242). On any
validation error: 400 with the first error's param, nothing stored. Then the
card-expiry sanity check (only when both `exp_month` and `exp_year` are
truthy; `monthEnd y m` stands for `new Date(year, month, 0)`), then the
external Stripe tokenization (`stripeOutcome`), then `storeToken`. -/
def issueRoute (store : TokenStore) (req : DelegateRequest) (now : Int)
    (monthEnd : Int → Int → Int) (stripeOutcome : Except String String)
    (vaultTokenId : String) : IssueResult :=
  match delegateValidationErrors req with
  | e :: _ =>
      ⟨400, .err ⟨"invalid_request", "missing_required_fields", "Validation failed"⟩
        (some e.vparam), store⟩
  | [] =>
      let cardCheck : Option IssueResult :=
        match req.payment_method with
        | none => none
        | some pm =>
            if truthyInt pm.exp_month && truthyInt pm.exp_year then
              let m := pm.exp_month.getD 0
              let y := pm.exp_year.getD 0
              if m < 1 ∨ m > 12 then
                some ⟨400, .err ⟨"invalid_request", "invalid_card",
                  "Invalid expiry date (exp_month must be 01-12)"⟩
                  (some "payment_method.exp_month"), store⟩
              else if monthEnd y m < now then
                some ⟨400, .err ⟨"invalid_request", "invalid_card", "Card has expired"⟩
                  (some "payment_method.exp_month"), store⟩
              else none
            else none
      match cardCheck with
      | some r => r
      | none =>
          match stripeOutcome with
          | .error msg =>
              ⟨400, .err ⟨"invalid_request", "invalid_card",
                "Card tokenization failed: " ++ msg⟩ (some "payment_method.number"), store⟩
          | .ok stripeTokenId =>
              ⟨201, .ok vaultTokenId now,
                storeToken store stripeTokenId (req.allowance.getD
                  ⟨none, none, none, none, none, none⟩) vaultTokenId now⟩

/-! ## Spec-side readings of the totals sequence -/

/-- First totals entry of a given type. -/
def findTotalType (ts : List Total) (ty : String) : Option Total :=
  match ts with
  | [] => none
  | t :: rest => if t.ttype = ty then some t else findTotalType rest ty

/-- Amount of the first entry of a given type, 0 when the type is absent —
the reading under which the spec's `total = subtotal − discount +
fulfillment + tax + fees` treats a missing entry as 0. -/
def amountOfTypeD (ts : List Total) (ty : String) : Int :=
  ((findTotalType ts ty).map (·.amount)).getD 0

/-! ## Concrete states used by the witnesses and counterexamples -/

/-- A sample in-window allowance bound to session `cs_1`. -/
def sampleAllowance : Allowance :=
  ⟨"one_time", mkRat 1000 1, "usd", "cs_1", "m_1", 1000000⟩

/-- A fresh, unused delegated token. -/
def sampleToken : Token :=
  ⟨"vt_1", "tok_s1", sampleAllowance, false, none, 0⟩

/-- The same token after a consume. -/
def usedToken : Token :=
  { sampleToken with used := true, used_at := some 1 }

/-- A line item totalling 430 minor units. -/
def sampleLineItem : LineItem :=
  ⟨"line_p1_0", ⟨"p1", 1⟩, 400, 0, 400, 30, 430⟩

/-- A totals sequence whose `total` entry is 430. -/
def sampleTotals : List Total :=
  [⟨"items_base_amount", "Items Subtotal", 400⟩,
   ⟨"subtotal", "Subtotal", 400⟩,
   ⟨"fulfillment", "Shipping", 0⟩,
   ⟨"tax", "Tax", 30⟩,
   ⟨"total", "Total", 430⟩]

/-- A `ready_for_payment` session `cs_1` expiring at the given time. -/
def readySession (expiresAt : Int) : Session :=
  { id := "cs_1", status := .ready_for_payment, currency := "usd",
    line_items := [sampleLineItem], totals := sampleTotals,
    fulfillment_options := [], messages := [],
    buyer := none, fulfillment_address := some "addr_1",
    fulfillment_option_id := some "shipping_standard",
    created_at := some 0, expires_at := some expiresAt,
    updated_at := none, completed_at := none, canceled_at := none,
    order := none }

/-- The same session, already completed. -/
def completedSession : Session :=
  { readySession 1000000 with status := .completed }

/-- The same session, already canceled. -/
def canceledSession : Session :=
  { readySession 1000000 with status := .canceled }

/-- File state with the ready session and the fresh delegated token. -/
def vaultData : Data :=
  { checkout_sessions := [("cs_1", readySession 1000000)],
    orders := [], delegated_tokens := [("vt_1", sampleToken)] }

/-- File state with the ready session and the already-used token. -/
def usedVaultData : Data :=
  { checkout_sessions := [("cs_1", readySession 1000000)],
    orders := [], delegated_tokens := [("vt_1", usedToken)] }

/-- File state whose only session is ready but expired at time 1000. -/
def expiredReadyData : Data :=
  { checkout_sessions := [("cs_1", readySession 1000)],
    orders := [], delegated_tokens := [] }

/-- File state whose only session is completed. -/
def completedData : Data :=
  { checkout_sessions := [("cs_1", completedSession)],
    orders := [], delegated_tokens := [] }

/-- File state whose only session is canceled. -/
def canceledData : Data :=
  { checkout_sessions := [("cs_1", canceledSession)],
    orders := [], delegated_tokens := [] }

/-- The successful complete call of the lost-consume scenario: a delegated
token, a ready session, a successful charge. -/
def sampleComplete : CompleteResult :=
  completeRoute vaultData "cs_1" (some ⟨"vt_1", "stripe"⟩) none 102
    (.ok ⟨"ch_1", "succeeded"⟩) "ord_1" "https://merchant.example"

/-- A complete call on the expired-but-ready session, with a direct
(non-delegated) credential and a successful charge, at time 2000 > 1000. -/
def expiredComplete : CompleteResult :=
  completeRoute expiredReadyData "cs_1" (some ⟨"tok_direct", "stripe"⟩) none 2000
    (.ok ⟨"ch_1", "succeeded"⟩) "ord_1" "https://merchant.example"

/-- A one-product catalog: `p1` sells for 1.00 (a unit price of one). -/
def oneItemCatalog : Catalog :=
  fun pid => if pid = "p1" then some ⟨"p1", ⟨some (mkRat 1 1), none, none⟩⟩ else none

/-- The session built from a request with a negative quantity: the create
route validates only that `items` is a non-empty array, so `quantity = -1`
reaches the builder. -/
def negativeQuantitySession : Session :=
  buildCheckoutSession oneItemCatalog (mkRat 8 100) "usd" "cs_7" none
    [⟨"p1", -1⟩] none none 0

/-- An allowance request that passes every issuance check while carrying a
negative `max_amount` and an `expires_at` already in the past at time 200. -/
def laxAllowanceReq : AllowanceReq :=
  ⟨some "one_time", some (mkRat (-5) 1), some "usd", some "cs_1", some "m_1", some 100⟩

/-- A payment method passing every issuance check. -/
def okPaymentMethod : PaymentMethodReq :=
  ⟨some "card", some "fpan", some "4242424242424242", some "credit", true,
    some 12, some 2030⟩

/-- The issue request wrapping the two. -/
def laxIssueReq : DelegateRequest :=
  ⟨some okPaymentMethod, some laxAllowanceReq, some ["r1"], true⟩

/-- Issuing that request at time 200 against an empty vault, with the
month-end far in the future and Stripe succeeding. -/
def laxIssue : IssueResult :=
  issueRoute [] laxIssueReq 200 (fun _ _ => 99999999999) (.ok "tok_s") "vt_6"

/-- A session built from well-formed inputs: quantity 2 of `p1` at price
one, address present, standard shipping selected. -/
def positiveQuantitySession : Session :=
  buildCheckoutSession oneItemCatalog (mkRat 8 100) "usd" "cs_8" none
    [⟨"p1", 2⟩] (some "addr") (some "shipping_standard") 0

/-- The single line item that session holds: base 200, tax 16, total 216. -/
def positiveLineItem : LineItem :=
  ⟨"line_p1_0", ⟨"p1", 2⟩, 200, 0, 200, 16, 216⟩

/-- Two JSON bodies with the same key/value structure in different key
order. -/
def bodyAB : Json :=
  .jobj (.cons "a" (.jnum 1) (.cons "b" (.jnum 2) .nil))

/-- `bodyAB` with its two keys swapped. -/
def bodyBA : Json :=
  .jobj (.cons "b" (.jnum 2) (.cons "a" (.jnum 1) .nil))

/-! ## Helper lemmas -/

/-- Reading back the key just written. -/
theorem lookupKey_setKey_self {α : Type} (m : List (String × α)) (k : String) (v : α) :
    lookupKey (setKey m k v) k = some v := by
  induction m with
  | nil => simp [setKey, lookupKey]
  | cons p rest ih =>
      by_cases h : p.1 = k
      · simp [setKey, lookupKey, h]
      · simp [setKey, lookupKey, h, ih]

/-- Writing one key leaves every other key's binding unchanged. -/
theorem lookupKey_setKey_other {α : Type} (m : List (String × α)) (k k' : String) (v : α)
    (h : k' ≠ k) : lookupKey (setKey m k v) k' = lookupKey m k' := by
  induction m with
  | nil => simp [setKey, lookupKey, Ne.symm h]
  | cons p rest ih =>
      by_cases hp : p.1 = k
      · have hpk : p.1 ≠ k' := by
          rw [hp]; exact Ne.symm h
        simp [setKey, lookupKey, hp, hpk, Ne.symm h]
      · by_cases hpk : p.1 = k'
        · simp [setKey, lookupKey, hp, hpk, h]
        · simp [setKey, lookupKey, hp, hpk, ih]

/-! ## Claim theorems -/

/-- C2: `validateAllowance` applies its checks in exactly the spec's order
with first failure winning — token exists (`invalid_token`) → not already
used (`token_already_used`) → not expired, `now <= expiresAt`
(`token_expired`) → session match (`invalid_session`) →
`amount <= maxAmount` (`amount_exceeds_allowance`) → currency match
(`currency_mismatch`) — and the six error codes are pairwise distinct;
when every check passes the result is valid (error code `none`). -/
theorem validateAllowance_check_order :
    ∀ (store : TokenStore) (tid sid : String) (amount : Rat) (currency : String) (now : Int),
      resultErrorCode (validateAllowance store tid sid amount currency now)
        = specValidationCode store tid sid amount currency now
      ∧ List.Pairwise (· ≠ ·)
          ["invalid_token", "token_already_used", "token_expired",
           "invalid_session", "amount_exceeds_allowance", "currency_mismatch"] := by
  intro store tid sid amount currency now
  refine ⟨?_, by decide⟩
  unfold validateAllowance specValidationCode
  cases lookupKey store tid with
  | none => rfl
  | some token =>
      simp only [firstFailingCode, resultErrorCode]
      split_ifs <;> simp_all [resultErrorCode] <;> linarith

/-- C10: consuming a token id that is absent from the store is a silent
no-op — `consumeToken` is total, returns the store unchanged, and only when
the token exists does it set `used := true` and `used_at := now`, leaving
every other binding as it was. -/
theorem consumeToken_missing_id_noop :
    ∀ (store : TokenStore) (tid : String) (now : Int),
      (lookupKey store tid = none → consumeToken store tid now = store)
      ∧ (∀ t, lookupKey store tid = some t →
          lookupKey (consumeToken store tid now) tid
            = some { t with used := true, used_at := some now }
          ∧ ∀ k, k ≠ tid → lookupKey (consumeToken store tid now) k = lookupKey store k) := by
  intro store tid now
  constructor
  · intro h
    simp [consumeToken, h]
  · intro t ht
    constructor
    · simp [consumeToken, ht, lookupKey_setKey_self]
    · intro k hk
      simp [consumeToken, ht, lookupKey_setKey_other _ _ _ _ hk]

/-- Witness for C10 at concrete stores: consuming from an empty store
returns it unchanged, and consuming an existing id flips exactly its
`used`/`used_at` fields. -/
theorem consumeToken_missing_id_noop_witness :
    consumeToken ([] : TokenStore) "vt_x" 5 = []
    ∧ lookupKey (consumeToken [("vt_1", sampleToken)] "vt_1" 7) "vt_1"
        = some { sampleToken with used := true, used_at := some 7 } :=
  ⟨(consumeToken_missing_id_noop [] "vt_x" 5).1 rfl,
   ((consumeToken_missing_id_noop [("vt_1", sampleToken)] "vt_1" 7).2 sampleToken rfl).1⟩

/-- C1 (code bug): token consumption is not an atomic check-and-set. Two
`complete` calls that both read the store before either consume — possible
because the route awaits the external Stripe charge between
`validateAllowance` and `consumeToken` — are both told the token is valid
with `used = false`. Worse, even a single successful `complete` leaves the
persisted token unconsumed: the route's final `writeData` (line 328) writes
the snapshot it read at line 216, clobbering `consumeToken`'s write, so the
resulting file still holds the token with `used = false`. -/
theorem complete_token_consume_not_atomic :
    validateAllowance vaultData.delegated_tokens "vt_1" "cs_1" ((430 : Int) : Rat) "usd" 100
      = .valid sampleToken
    ∧ validateAllowance vaultData.delegated_tokens "vt_1" "cs_1" ((430 : Int) : Rat) "usd" 101
      = .valid sampleToken
    ∧ sampleToken.used = false
    ∧ sampleComplete.status = 201
    ∧ lookupKey sampleComplete.data.delegated_tokens "vt_1" = some sampleToken := by
  decide

/-- C9 counterexample: two bodies with identical key/value structure but
different key order (equal canonical forms) receive different idempotency
fingerprints, because `hashRequestBody` hashes `JSON.stringify(body)`
without any canonical key sort. -/
theorem hashRequestBody_order_sensitive :
    canonicalJson bodyAB = canonicalJson bodyBA
    ∧ hashRequestBody (some bodyAB) ≠ hashRequestBody (some bodyBA) :=
  ⟨rfl, by decide⟩

/-- C9 amended: no normalization happens before hashing — the fingerprint
is exactly determined by the serialized body, so two bodies hash identically
precisely when `JSON.stringify` renders them identically (key order
included). -/
theorem hashRequestBody_eq_iff_stringify_eq :
    ∀ a b : Json,
      hashRequestBody (some a) = hashRequestBody (some b)
        ↔ stringifyJson a = stringifyJson b :=
  fun _ _ => Iff.rfl

/-- C5: a request whose `Idempotency-Key` is already recorded replays the
cached status and body verbatim when the body fingerprint matches — without
running the business handler, so its state (for `create`: the session store)
is returned untouched — and is rejected with the 409 `idempotency_conflict`
body when the fingerprint differs; an unrecorded key always runs the
handler as a fresh request (recording its sub-500 response). -/
theorem handleIdempotency_replay_conflict_new :
    ∀ (ρ σ : Type) (store : IdemStore ρ) (k : String) (rec : IdemRecord ρ)
      (body : Option Json) (now : Int) (state : σ) (handler : σ → Nat × ρ × σ),
      (lookupKey store k = some rec →
        (hashRequestBody body = rec.bodyHash →
          handleIdempotency store (some k) body now state handler
            = .replayed rec.status rec.response store state)
        ∧ (hashRequestBody body ≠ rec.bodyHash →
          handleIdempotency store (some k) body now state handler
            = .rejected 409
                ⟨"invalid_request", "idempotency_conflict",
                  "Same Idempotency-Key used with different parameters"⟩ store state))
      ∧ (lookupKey store k = none →
          handleIdempotency store (some k) body now state handler
            = .executed (handler state).1 (handler state).2.1
                (if (handler state).1 < 500 then
                  setKey store k
                    ⟨(handler state).1, (handler state).2.1, hashRequestBody body, now⟩
                else store)
                (handler state).2.2) := by
  intro ρ σ store k rec body now state handler
  constructor
  · intro h
    constructor
    · intro he
      simp [handleIdempotency, h, he]
    · intro hne
      simp [handleIdempotency, h, Ne.symm hne]
  · intro h
    simp [handleIdempotency, h]

/-- Witness for C5 at a concrete store: key `k1` with matching fingerprint
replays the cached 201 response with the state (0) untouched; fresh key
`k2` executes the handler and records its response. -/
theorem handleIdempotency_replay_conflict_new_witness :
    handleIdempotency [("k1", ⟨201, "resp", "", 0⟩)] (some "k1") none 5 (0 : Nat)
        (fun n => (201, "new", n + 1))
      = .replayed 201 "resp" [("k1", ⟨201, "resp", "", 0⟩)] 0
    ∧ handleIdempotency [("k1", ⟨201, "resp", "", 0⟩)] (some "k2") none 5 (0 : Nat)
        (fun n => (201, "new", n + 1))
      = .executed 201 "new"
          (setKey [("k1", ⟨201, "resp", "", 0⟩)] "k2" ⟨201, "new", "", 5⟩) 1 :=
  ⟨((handleIdempotency_replay_conflict_new String Nat [("k1", ⟨201, "resp", "", 0⟩)] "k1"
      ⟨201, "resp", "", 0⟩ none 5 0 (fun n => (201, "new", n + 1))).1 rfl).1 rfl,
   (handleIdempotency_replay_conflict_new String Nat [("k1", ⟨201, "resp", "", 0⟩)] "k2"
      ⟨201, "resp", "", 0⟩ none 5 0 (fun n => (201, "new", n + 1))).2 rfl⟩

/-- C3: when `complete` reaches the vault and validation fails — whichever
of the six vault errors fires, `amount_exceeds_allowance` included — the
route responds 400 with exactly the vault's error body, the charge is never
attempted, and the file state (sessions, orders, tokens) is returned
byte-for-byte unchanged; in particular the session found at `sid` still has
status `ready_for_payment`. -/
theorem complete_vault_failure_leaves_session_untouched
    (d : Data) (sid : String) (pd : PaymentData) (buyer : Option String) (now : Int)
    (co : Except String Charge) (oid burl : String) (s : Session) (e : ErrorBody)
    (htok : pd.token ≠ "") (hprov : pd.provider ≠ "")
    (hs : lookupKey d.checkout_sessions sid = some s)
    (hready : s.status = .ready_for_payment)
    (hdeleg : strStartsWith pd.token "vt_" = true)
    (hval : validateAllowance d.delegated_tokens pd.token sid
      ((totalAmountOf s : Int) : Rat) s.currency now = .invalid e) :
    completeRoute d sid (some pd) buyer now co oid burl = ⟨400, .err e, d, false⟩ := by
  simp [completeRoute, hs, hready, hdeleg, hval, htok, hprov]

/-- Witness for C3: completing the ready session with the already-used
token is rejected with the vault's `token_already_used` body and leaves the
file unchanged. -/
theorem complete_vault_failure_witness :
    completeRoute usedVaultData "cs_1" (some ⟨"vt_1", "stripe"⟩) none 100
        (.ok ⟨"ch_1", "succeeded"⟩) "ord_1" "https://merchant.example"
      = ⟨400, .err ⟨"invalid_request", "token_already_used", "Token has already been used"⟩,
          usedVaultData, false⟩ :=
  complete_vault_failure_leaves_session_untouched usedVaultData "cs_1" ⟨"vt_1", "stripe"⟩
    none 100 (.ok ⟨"ch_1", "succeeded"⟩) "ord_1" "https://merchant.example"
    (readySession 1000000)
    ⟨"invalid_request", "token_already_used", "Token has already been used"⟩
    (by decide) (by decide) (by decide) (by decide) (by decide) (by decide)

/-- C8 counterexample: canceling a completed session is rejected with HTTP
status 400 (`session_already_completed`), not a 405-class status. -/
theorem cancel_completed_is_400_not_405 :
    (cancelRoute completedData "cs_1" 5).status = 400
    ∧ (cancelRoute completedData "cs_1" 5).status ≠ 405 := by
  decide

/-- C8 amended: canceling a completed session is rejected — with HTTP 400
and code `session_already_completed`, not a 405-class status — and leaves
the file unchanged; canceling an already-canceled session is an idempotent
no-op returning the stored terminal body, and doing it twice returns the
same body both times. -/
theorem cancel_contract_amended :
    ∀ (d : Data) (sid : String) (now now' : Int) (s : Session),
      lookupKey d.checkout_sessions sid = some s →
      (s.status = .completed →
        cancelRoute d sid now
          = ⟨400, .err ⟨"invalid_request", "session_already_completed",
              "Cannot cancel a completed session"⟩, d⟩)
      ∧ (s.status = .canceled →
        cancelRoute d sid now = ⟨200, .session s, d⟩
        ∧ cancelRoute (cancelRoute d sid now).data sid now' = ⟨200, .session s, d⟩) := by
  intro d sid now now' s hs
  constructor
  · intro hc
    simp [cancelRoute, hs, hc]
  · intro hc
    have h1 : cancelRoute d sid now = ⟨200, .session s, d⟩ := by
      simp [cancelRoute, hs, hc]
    refine ⟨h1, ?_⟩
    rw [h1]
    simp [cancelRoute, hs, hc]

/-- Witness for C8 at the concrete stores: the completed session gets the
400 rejection; the canceled session gets its stored body back with the file
unchanged. -/
theorem cancel_contract_amended_witness :
    cancelRoute completedData "cs_1" 5
      = ⟨400, .err ⟨"invalid_request", "session_already_completed",
          "Cannot cancel a completed session"⟩, completedData⟩
    ∧ cancelRoute canceledData "cs_1" 5 = ⟨200, .session canceledSession, canceledData⟩ :=
  ⟨(cancel_contract_amended completedData "cs_1" 5 0 completedSession rfl).1 rfl,
   ((cancel_contract_amended canceledData "cs_1" 5 0 canceledSession rfl).2 rfl).1⟩

/-- C4 counterexample: `complete` performs no expiry check — on the session
whose `expires_at` is 1000, called at `now = 2000` with a valid direct
credential and a successful charge, the route answers 201 and the stored
session becomes `completed`, although `now > expiresAt`. -/
theorem expired_session_still_completes :
    expiredComplete.status = 201
    ∧ Option.map Session.status (lookupKey expiredComplete.data.checkout_sessions "cs_1")
        = some .completed
    ∧ (readySession 1000).expires_at = some 1000
    ∧ (2000 : Int) > 1000 := by
  decide

/-- C4 amended: only `update` enforces expiry — an update at `now >
expiresAt` is rejected with `session_expired` and the session is stored
back with status forced to `canceled`; `complete` never reads `expires_at`,
so an expired session still in `ready_for_payment` completes normally
(201, status `completed`) when the charge succeeds; `cancel` also ignores
expiry and cancels an expired non-terminal session as an ordinary 200
cancellation rather than rejecting it. -/
theorem expiry_enforced_only_on_update :
    (∀ (catalog : Catalog) (rate : Rat) (cur : String) (d : Data) (sid : String)
        (body : UpdateBody) (now e : Int) (s : Session),
      lookupKey d.checkout_sessions sid = some s → s.expires_at = some e → now > e →
        updateRoute catalog rate cur d sid body now
          = ⟨400, .err ⟨"invalid_request", "session_expired", "Checkout session has expired"⟩,
              { d with checkout_sessions :=
                  setKey d.checkout_sessions sid { s with status := .canceled } }⟩)
    ∧ (∀ (d : Data) (sid : String) (pd : PaymentData) (buyer : Option String)
        (now e : Int) (ch : Charge) (oid burl : String) (s : Session),
      pd.token ≠ "" → pd.provider ≠ "" →
      lookupKey d.checkout_sessions sid = some s →
      s.status = .ready_for_payment →
      strStartsWith pd.token "vt_" = false →
      s.expires_at = some e → now > e →
        (completeRoute d sid (some pd) buyer now (.ok ch) oid burl).status = 201
        ∧ Option.map Session.status
            (lookupKey (completeRoute d sid (some pd) buyer now (.ok ch) oid burl).data.checkout_sessions
              sid)
          = some .completed)
    ∧ (∀ (d : Data) (sid : String) (now e : Int) (s : Session),
      lookupKey d.checkout_sessions sid = some s →
      s.status ≠ .completed → s.status ≠ .canceled →
      s.expires_at = some e → now > e →
        (cancelRoute d sid now).status = 200
        ∧ Option.map Session.status
            (lookupKey (cancelRoute d sid now).data.checkout_sessions sid)
          = some .canceled) := by
  refine ⟨?_, ?_, ?_⟩
  · intro catalog rate cur d sid body now e s hs hexp hnow
    simp [updateRoute, hs, hexp, hnow]
  · intro d sid pd buyer now e ch oid burl s htok hprov hs hready hdeleg hexp hnow
    constructor
    · simp [completeRoute, hs, hready, hdeleg, htok, hprov]
    · simp [completeRoute, hs, hready, hdeleg, htok, hprov, lookupKey_setKey_self]
  · intro d sid now e s hs hc1 hc2 hexp hnow
    constructor
    · simp [cancelRoute, hs, hc1, hc2]
    · simp [cancelRoute, hs, hc1, hc2, lookupKey_setKey_self]

/-- Witness for C4 at the expired ready session (`expires_at = 1000`,
`now = 2000`): update is rejected and forces `canceled`; complete still
answers 201 and completes; cancel answers 200 and cancels. -/
theorem expiry_enforced_only_on_update_witness :
    updateRoute oneItemCatalog (mkRat 8 100) "usd" expiredReadyData "cs_1"
        ⟨none, none, none, none⟩ 2000
      = ⟨400, .err ⟨"invalid_request", "session_expired", "Checkout session has expired"⟩,
          { expiredReadyData with
              checkout_sessions := setKey expiredReadyData.checkout_sessions "cs_1"
                  { readySession 1000 with status := .canceled } }⟩
    ∧ expiredComplete.status = 201
    ∧ (cancelRoute expiredReadyData "cs_1" 2000).status = 200 :=
  ⟨expiry_enforced_only_on_update.1 oneItemCatalog (mkRat 8 100) "usd" expiredReadyData
      "cs_1" ⟨none, none, none, none⟩ 2000 1000 (readySession 1000) rfl rfl (by decide),
   (expiry_enforced_only_on_update.2.1 expiredReadyData "cs_1" ⟨"tok_direct", "stripe"⟩
      none 2000 1000 ⟨"ch_1", "succeeded"⟩ "ord_1" "https://merchant.example"
      (readySession 1000) (by decide) (by decide) rfl rfl (by decide) rfl (by decide)).1,
   ((expiry_enforced_only_on_update.2.2 expiredReadyData "cs_1" 2000 1000
      (readySession 1000) rfl (by decide) (by decide) rfl (by decide))).1⟩

/-- C6 counterexample: the allowance of `laxAllowanceReq` — `reason =
"one_time"`, `max_amount = -5` (a negative number, not a positive integer)
and `expires_at = 100`, already in the past at issuance time 200 — passes
every issuance check, and the issue route stores the token under `vt_6`
with a 201, contradicting the claim that `maxAmount` must be a positive
integer and `expiresAt` strictly in the future. -/
theorem issue_accepts_negative_amount_and_past_expiry :
    allowanceValidationErrors (some laxAllowanceReq) = []
    ∧ laxAllowanceReq.max_amount = some (mkRat (-5) 1)
    ∧ mkRat (-5) 1 < 0
    ∧ laxAllowanceReq.expires_at = some 100
    ∧ (100 : Int) < 200
    ∧ laxIssue.status = 201
    ∧ lookupKey laxIssue.store "vt_6"
        = some { id := "vt_6", stripe_token_id := "tok_s",
                 allowance := ⟨"one_time", mkRat (-5) 1, "usd", "cs_1", "m_1", 100⟩,
                 used := false, used_at := none, created := 200 } := by
  decide

/-- C6 amended: the allowance is validated before any token is stored —
any validation error yields a 400 naming the first failing param with
nothing stored — but the checks are weaker than claimed: `reason` must
equal `"one_time"`; `max_amount` must merely be present and nonzero
(positivity and integrality are not checked); `currency` must match
`^[a-z]{3}$`; `checkout_session_id` and `merchant_id` must be nonempty; and
`expires_at` must merely be present — it is never compared against the
issuance clock, so past expiries are accepted. -/
theorem issue_validation_amended :
    (∀ (store : TokenStore) (req : DelegateRequest) (now : Int)
        (monthEnd : Int → Int → Int) (so : Except String String) (vt : String)
        (e : VError) (rest : List VError),
      delegateValidationErrors req = e :: rest →
        issueRoute store req now monthEnd so vt
          = ⟨400, .err ⟨"invalid_request", "missing_required_fields", "Validation failed"⟩
              (some e.vparam), store⟩)
    ∧ (∀ a : AllowanceReq,
        allowanceValidationErrors (some a) = []
          ↔ (a.reason = some "one_time"
             ∧ (∃ q, a.max_amount = some q ∧ q ≠ 0)
             ∧ (∃ c, a.currency = some c ∧ currencyMatches c = true)
             ∧ truthyStr a.checkout_session_id = true
             ∧ truthyStr a.merchant_id = true
             ∧ a.expires_at ≠ none)) := by
  constructor
  · intro store req now monthEnd so vt e rest h
    simp [issueRoute, h]
  · intro a
    obtain ⟨r, m, c, cs, mi, ex⟩ := a
    cases m <;> cases c <;> cases ex <;>
      simp [allowanceValidationErrors, List.append_eq_nil]

/-- Witness for C6: a fully-empty issue request is rejected with 400 naming
`payment_method` and stores nothing; the lax allowance request passes the
allowance checks. -/
theorem issue_validation_amended_witness :
    issueRoute [] ⟨none, none, none, false⟩ 0 (fun _ _ => 0) (.ok "t") "vt_w"
      = ⟨400, .err ⟨"invalid_request", "missing_required_fields", "Validation failed"⟩
          (some "payment_method"), []⟩
    ∧ allowanceValidationErrors (some laxAllowanceReq) = [] :=
  ⟨issue_validation_amended.1 [] ⟨none, none, none, false⟩ 0 (fun _ _ => 0) (.ok "t") "vt_w"
      ⟨"payment_method", "Required field: payment_method"⟩
      [⟨"allowance", "Required field: allowance"⟩,
       ⟨"risk_signals", "Required field: risk_signals (non-empty array)"⟩,
       ⟨"metadata", "Required field: metadata"⟩] (by decide),
   (issue_validation_amended.2 laxAllowanceReq).mpr
     ⟨rfl, ⟨mkRat (-5) 1, rfl, by decide⟩, ⟨"usd", rfl, by decide⟩,
      by decide, by decide, by decide⟩⟩

/-- JS `Math.round(p * k)` agrees with Mathlib's `round` of the exact
rational product: the embedding's floor-division form is the usual
round-half-up. -/
theorem jsRoundRatInt_eq_round (p : Rat) (k : Int) :
    jsRoundRatInt p k = round (p * (k : ℚ)) := by
  have hdenQ : ((p.den : ℕ) : ℚ) ≠ 0 := by
    exact_mod_cast p.pos.ne'
  have hnum : (p.num : ℚ) = p * ((p.den : ℕ) : ℚ) :=
    (div_eq_iff hdenQ).mp (Rat.num_div_den p)
  rw [round_eq]
  unfold jsRoundRatInt
  rw [Int.fdiv_eq_ediv _ (by positivity)]
  have h2 : 2 * ((p.den : ℕ) : ℤ) = ((2 * p.den : ℕ) : ℤ) := by push_cast; ring
  rw [h2, ← Rat.floor_intCast_div_natCast]
  congr 1
  push_cast
  field_simp
  linear_combination (4 * (k : ℚ)) * hnum

/-- Rounding a product of non-negatives is non-negative. -/
theorem jsRoundRatInt_nonneg (p : Rat) (k : Int) (hp : 0 ≤ p) (hk : 0 ≤ k) :
    0 ≤ jsRoundRatInt p k := by
  unfold jsRoundRatInt
  refine Int.fdiv_nonneg ?_ (by positivity)
  have h1 : 0 ≤ p.num := Rat.num_nonneg.mpr hp
  have h2 : (0:ℤ) ≤ 2 * p.num * k := mul_nonneg (mul_nonneg (by norm_num) h1) hk
  have h3 : (0:ℤ) ≤ (p.den : ℤ) := Int.ofNat_nonneg _
  linarith

/-- The derived totals sequence of `buildTotals`: the `total` entry equals
subtotal − discount + fulfillment + tax + fee (a missing typed entry read
as 0), the `fulfillment` entry is the selected option's cost (or 0), and
the `tax` entry is the items' tax plus the selected option's tax (or 0). -/
theorem buildTotals_entries (lis : List LineItem) (sel : Option FulfillmentOption) :
    amountOfTypeD (buildTotals lis sel) "total"
      = amountOfTypeD (buildTotals lis sel) "subtotal"
        - amountOfTypeD (buildTotals lis sel) "discount"
        + amountOfTypeD (buildTotals lis sel) "fulfillment"
        + amountOfTypeD (buildTotals lis sel) "tax"
        + amountOfTypeD (buildTotals lis sel) "fee"
    ∧ amountOfTypeD (buildTotals lis sel) "fulfillment" = (sel.map (·.subtotal)).getD 0
    ∧ amountOfTypeD (buildTotals lis sel) "tax"
        = (lis.map (·.tax)).sum + (sel.map (·.tax)).getD 0 := by
  unfold buildTotals amountOfTypeD
  by_cases hd : (0 : Int) < (lis.map (·.discount)).sum
  · cases sel <;> simp [findTotalType, hd]
  · cases sel <;> simp [findTotalType, hd]

/-- Shape of every line item `buildLineItems` produces: zero discount, the
subtotal/total identities, tax as the rounded rate of the subtotal, and a
base amount rounded from some resolved catalog price times quantity. -/
theorem buildLineItems_props (catalog : Catalog) (rate : Rat) (now : Int) :
    ∀ (items : List ItemReq), ∀ li ∈ (buildLineItems catalog rate items now).1,
      li.discount = 0
      ∧ li.subtotal = li.base_amount - li.discount
      ∧ li.total = li.base_amount - li.discount + li.tax
      ∧ li.tax = jsRoundRatInt rate li.subtotal
      ∧ ∃ item product, item ∈ items ∧ catalog item.id = some product
          ∧ li.base_amount
              = jsRoundRatInt (effectivePrice product.pricing) (item.quantity * 100) := by
  intro items
  induction items with
  | nil =>
      intro li h
      simp [buildLineItems] at h
  | cons it rest ih =>
      intro li h
      cases hc : catalog it.id with
      | none =>
          simp only [buildLineItems, hc] at h
          obtain ⟨hd, hs, ht, htax, item, product, hmem, hcat, hbase⟩ := ih li h
          exact ⟨hd, hs, ht, htax, item, product, List.mem_cons_of_mem _ hmem, hcat, hbase⟩
      | some product =>
          simp only [buildLineItems, hc] at h
          rcases List.mem_cons.mp h with hEq | hMem
          · subst hEq
            exact ⟨rfl, rfl, rfl, rfl, it, product, List.mem_cons_self _ _, hc, rfl⟩
          · obtain ⟨hd, hs, ht, htax, item, product2, hmem, hcat, hbase⟩ := ih li hMem
            exact ⟨hd, hs, ht, htax, item, product2, List.mem_cons_of_mem _ hmem, hcat, hbase⟩

/-- C7 counterexample: the create route validates only that `items` is a
non-empty array, so `quantity = -1` reaches the builder, and the resulting
session (price one, 8% tax) carries a line item with `base_amount = -100`
and `total = -108` — money fields are not non-negative as claimed. -/
theorem line_items_negative_money_fields :
    negativeQuantitySession.line_items.map (·.base_amount) = [-100]
    ∧ negativeQuantitySession.line_items.map (·.total) = [-108]
    ∧ (-100 : Int) < 0 := by
  decide

/-- C7 amended: after every session-building mutation (create and update
both rebuild through `buildCheckoutSession`), the `total`-typed entry
equals subtotal − discount + fulfillment + tax + fees read off the derived
sequence, the fulfillment and tax entries take the selected option's cost
and tax (or 0 when none is selected), and every line item satisfies
`total = baseAmount − discount + tax` and `subtotal = baseAmount −
discount` with integer money fields; the fields are moreover non-negative
provided every resolved catalog price, every requested quantity and the tax
rate are non-negative — the code itself never validates `quantity ≥ 0`,
hence the counterexample. -/
theorem totals_and_line_item_invariants :
    (∀ (catalog : Catalog) (rate : Rat) (cur sid : String) (buyer : Option String)
        (items : List ItemReq) (addr fid : Option String) (now : Int),
      amountOfTypeD (buildCheckoutSession catalog rate cur sid buyer items addr fid now).totals
          "total"
        = amountOfTypeD (buildCheckoutSession catalog rate cur sid buyer items addr fid now).totals
            "subtotal"
          - amountOfTypeD (buildCheckoutSession catalog rate cur sid buyer items addr fid now).totals
              "discount"
          + amountOfTypeD (buildCheckoutSession catalog rate cur sid buyer items addr fid now).totals
              "fulfillment"
          + amountOfTypeD (buildCheckoutSession catalog rate cur sid buyer items addr fid now).totals
              "tax"
          + amountOfTypeD (buildCheckoutSession catalog rate cur sid buyer items addr fid now).totals
              "fee")
    ∧ (∀ (lis : List LineItem) (sel : Option FulfillmentOption),
        amountOfTypeD (buildTotals lis sel) "fulfillment" = (sel.map (·.subtotal)).getD 0
        ∧ amountOfTypeD (buildTotals lis sel) "tax"
            = (lis.map (·.tax)).sum + (sel.map (·.tax)).getD 0)
    ∧ (∀ (catalog : Catalog) (rate : Rat) (cur sid : String) (buyer : Option String)
        (items : List ItemReq) (addr fid : Option String) (now : Int),
      ∀ li ∈ (buildCheckoutSession catalog rate cur sid buyer items addr fid now).line_items,
        li.total = li.base_amount - li.discount + li.tax
        ∧ li.subtotal = li.base_amount - li.discount)
    ∧ (∀ (catalog : Catalog) (rate : Rat) (cur sid : String) (buyer : Option String)
        (items : List ItemReq) (addr fid : Option String) (now : Int),
      (∀ pid p, catalog pid = some p → 0 ≤ effectivePrice p.pricing) →
      (∀ it ∈ items, 0 ≤ it.quantity) →
      0 ≤ rate →
      ∀ li ∈ (buildCheckoutSession catalog rate cur sid buyer items addr fid now).line_items,
        0 ≤ li.base_amount ∧ 0 ≤ li.discount ∧ 0 ≤ li.subtotal ∧ 0 ≤ li.tax ∧ 0 ≤ li.total) := by
  refine ⟨?_, ?_, ?_, ?_⟩
  · intro catalog rate cur sid buyer items addr fid now
    exact (buildTotals_entries _ _).1
  · intro lis sel
    exact (buildTotals_entries lis sel).2
  · intro catalog rate cur sid buyer items addr fid now li hmem
    obtain ⟨hd, hs, ht, htax, -⟩ := buildLineItems_props catalog rate now items li hmem
    exact ⟨ht, hs⟩
  · intro catalog rate cur sid buyer items addr fid now hcat hq hrate li hmem
    obtain ⟨hd, hs, ht, htax, item, product, hitem, hcatEq, hbase⟩ :=
      buildLineItems_props catalog rate now items li hmem
    have hq' : 0 ≤ item.quantity := hq item hitem
    have hp' : 0 ≤ effectivePrice product.pricing := hcat _ _ hcatEq
    have hbase' : 0 ≤ li.base_amount := by
      rw [hbase]
      exact jsRoundRatInt_nonneg _ _ hp' (by positivity)
    have hsub' : 0 ≤ li.subtotal := by rw [hs, hd]; omega
    have htax' : 0 ≤ li.tax := by
      rw [htax]
      exact jsRoundRatInt_nonneg _ _ hrate hsub'
    refine ⟨hbase', by rw [hd], hsub', htax', by rw [ht, hd]; omega⟩

/-- Witness for C7 at the well-formed session (quantity 2, price one, 8%
tax, standard shipping selected): the totals identity holds concretely and
the session's line item — base 200, tax 16, total 216 — has non-negative
fields. -/
theorem totals_and_line_item_invariants_witness :
    amountOfTypeD positiveQuantitySession.totals "total"
      = amountOfTypeD positiveQuantitySession.totals "subtotal"
        - amountOfTypeD positiveQuantitySession.totals "discount"
        + amountOfTypeD positiveQuantitySession.totals "fulfillment"
        + amountOfTypeD positiveQuantitySession.totals "tax"
        + amountOfTypeD positiveQuantitySession.totals "fee"
    ∧ (0 ≤ positiveLineItem.base_amount ∧ 0 ≤ positiveLineItem.discount
        ∧ 0 ≤ positiveLineItem.subtotal ∧ 0 ≤ positiveLineItem.tax
        ∧ 0 ≤ positiveLineItem.total) :=
  ⟨totals_and_line_item_invariants.1 oneItemCatalog (mkRat 8 100) "usd" "cs_8" none
      [⟨"p1", 2⟩] (some "addr") (some "shipping_standard") 0,
   totals_and_line_item_invariants.2.2.2 oneItemCatalog (mkRat 8 100) "usd" "cs_8" none
      [⟨"p1", 2⟩] (some "addr") (some "shipping_standard") 0
      (fun pid p hp => by
        by_cases h : pid = "p1" <;> simp [oneItemCatalog, h] at hp
        rw [← hp]
        decide)
      (by decide) (by decide) positiveLineItem (by decide)⟩

end ACP
